import Mathlib

/-!
Verification of `src/backend/app.py` (aws-cost-dashboard): a FastAPI service
exposing `/health`, `/metrics`, `/resources` and `/cost`.  The Python source is
shallowly embedded below: pure fragments become Lean functions, fallible
provider calls become `Except String` values (the `String` is the stringified
exception message), and Python `float` arithmetic is modelled exactly with
unreduced integer fractions rounded to IEEE-754 binary64 values.
-/

deriving instance DecidableEq for Except

namespace AwsDash

/-- An exact rational value as an unreduced fraction `num / den` with `den > 0`
by construction.  Used to model Python decimal strings and binary64 floats
exactly (binary64 values are dyadic rationals). -/
structure Qx where
  num : Int
  den : Int
deriving DecidableEq, Repr

def Qx.ofInt (n : Int) : Qx := ⟨n, 1⟩

def Qx.neg (q : Qx) : Qx := ⟨-q.num, q.den⟩

def Qx.mulInt (q : Qx) (n : Int) : Qx := ⟨q.num * n, q.den⟩

/-- `q / 2`. -/
def Qx.half (q : Qx) : Qx := ⟨q.num, q.den * 2⟩

/-- `q * 2`. -/
def Qx.twice (q : Qx) : Qx := ⟨q.num * 2, q.den⟩

/-- `a ≤ b` by cross multiplication (both denominators positive). -/
def Qx.le (a b : Qx) : Bool := decide (a.num * b.den ≤ b.num * a.den)

/-- `a < b` by cross multiplication (both denominators positive). -/
def Qx.lt (a b : Qx) : Bool := decide (a.num * b.den < b.num * a.den)

/-- Value equality of unreduced fractions. -/
def Qx.equiv (a b : Qx) : Prop := a.num * b.den = b.num * a.den

instance (a b : Qx) : Decidable (Qx.equiv a b) := by
  unfold Qx.equiv
  exact inferInstance

/-- `⌊q⌋` (denominator positive, so `Int.fdiv` is the floor). -/
def Qx.floor (q : Qx) : Int := Int.fdiv q.num q.den

/-- Round an exact rational to the nearest integer, ties to the even
integer (the IEEE-754 default rounding used both by binary64 operations and
by CPython's correctly rounded `round`). -/
def rndHalfEven (q : Qx) : Int :=
  let f := q.floor
  let t := 2 * (q.num - f * q.den)
  if t < q.den then f
  else if q.den < t then f + 1
  else if f % 2 = 0 then f else f + 1

/-- The binary exponent `e` with `2^e ≤ q < 2^(e+1)` for `q > 0`, found by
halving/doubling; `fuel` bounds the search and is always chosen larger than
the true `|e|`. -/
def findExp : Nat → Qx → Int
  | 0, _ => 0
  | fuel + 1, q =>
      if Qx.le (Qx.ofInt 2) q then findExp fuel q.half + 1
      else if Qx.lt q (Qx.ofInt 1) then findExp fuel q.twice - 1
      else 0

/-- `q * 2^k` for a signed `k`, kept as an unreduced fraction. -/
def mulPow2 (q : Qx) (k : Int) : Qx :=
  if 0 ≤ k then ⟨q.num * (2 : Int) ^ k.toNat, q.den⟩
  else ⟨q.num, q.den * (2 : Int) ^ (-k).toNat⟩

/-- Nearest binary64 value to a positive rational: scale into the 53-bit
mantissa range for its binade and round half-even.  Modelled on the normal
finite range (no overflow or subnormal handling; every quantity in this
development is far inside that range). -/
def toDoublePos (q : Qx) : Qx :=
  let e := findExp (q.num.natAbs + q.den.natAbs + 1100) q
  let s : Int := 52 - e
  let m := rndHalfEven (mulPow2 q s)
  mulPow2 (Qx.ofInt m) (-s)

/-- Nearest binary64 value to an exact rational (round half-even). -/
def toDouble (q : Qx) : Qx :=
  if q.num = 0 then ⟨0, 1⟩
  else if q.num < 0 then Qx.neg (toDoublePos (Qx.neg q))
  else toDoublePos q

/-- Decimal digit value of a character, if it is a digit. -/
def digitVal (c : Char) : Nat := c.toNat - 48

/-- Split a leading run of decimal digits off a character list. -/
def spanDigits : List Char → List Nat × List Char
  | [] => ([], [])
  | c :: cs =>
      if c.isDigit then
        let p := spanDigits cs
        (digitVal c :: p.1, p.2)
      else ([], c :: cs)

/-- Value of a digit run read most-significant first. -/
def digitsToInt (ds : List Nat) : Int :=
  ds.foldl (fun a d => a * 10 + (d : Int)) 0

/-- Parse a plain decimal literal (optional sign, digits, optional single
point) to an exact fraction, as Python's `float` constructor does on the
amount strings the billing API returns; any other string raises
`ValueError`, modelled as `none`.  (Python `float` also accepts exponents,
`inf`/`nan`, underscores and surrounding whitespace; billing amount strings
never use those forms.) -/
def parseDec (s : String) : Option Qx :=
  let cs := s.toList
  let sp : Int × List Char :=
    match cs with
    | '-' :: r => (-1, r)
    | '+' :: r => (1, r)
    | r => (1, r)
  let ip := spanDigits sp.2
  match ip.2 with
  | [] => if ip.1 = [] then none else some ⟨sp.1 * digitsToInt ip.1, 1⟩
  | '.' :: r =>
      let fp := spanDigits r
      if fp.2 = [] then
        if ip.1 = [] ∧ fp.1 = [] then none
        else some ⟨sp.1 * (digitsToInt ip.1 * (10 : Int) ^ fp.1.length + digitsToInt fp.1),
                   (10 : Int) ^ fp.1.length⟩
      else none
  | _ => none

/-- Python `float(s)`: parse the decimal literal and take the nearest
binary64 value. -/
def pyFloat (s : String) : Option Qx := (parseDec s).map toDouble

/-- Python `round(x, 2)` on a binary64 `x`: CPython rounds the exact binary
value of `x` to the closest multiple of `10^-2` (ties to even) and returns
the binary64 value nearest that decimal result. -/
def pyRound2 (q : Qx) : Qx := toDouble ⟨rndHalfEven (q.mulInt 100), 100⟩

/-! Section: Request model and credential validation (app.py lines 20-23) -/

/-- A JSON request body for the two POST endpoints; `none` models an absent
field. -/
structure Payload where
  access_key : Option String
  secret_key : Option String
  region : Option String
deriving DecidableEq

/-- `class AWSCreds(BaseModel)` (app.py lines 20-23). -/
structure AWSCreds where
  access_key : String
  secret_key : String
  region : String
deriving DecidableEq

/-- Pydantic validation of the request body against `AWSCreds`: a missing
required field is rejected with a `Field required` error before the handler
body runs; `region` defaults to `"us-east-1"` (app.py line 23).  FastAPI
turns the rejection into a 422 response. -/
def validateCreds (p : Payload) : Except String AWSCreds :=
  match p.access_key with
  | none => .error "Field required: access_key"
  | some a =>
      match p.secret_key with
      | none => .error "Field required: secret_key"
      | some s => .ok ⟨a, s, p.region.getD "us-east-1"⟩

/-- Outcome of one handler invocation.  `ok` is a 200 JSON body;
`validationFailure` is pydantic's 422, produced before the handler body;
`httpError` is `HTTPException(status_code=400, detail=...)` (app.py lines
70-71 and 96-97). -/
inductive HandlerResult (α : Type) where
  | ok : α → HandlerResult α
  | validationFailure : String → HandlerResult α
  | httpError : String → HandlerResult α
deriving DecidableEq

def HandlerResult.statusCode : HandlerResult α → Nat
  | .ok _ => 200
  | .validationFailure _ => 422
  | .httpError _ => 400

/-! Section: `/resources` (app.py lines 53-71) -/

/-- One element of `instances["Reservations"]`; only its `Instances` list is
consumed, its elements stay opaque (type `α`). -/
structure Reservation (α : Type) where
  Instances : List α
deriving DecidableEq

/-- Response of `ec2.describe_instances()`. -/
structure EC2Response (α : Type) where
  Reservations : List (Reservation α)
deriving DecidableEq

/-- Response of `s3.list_buckets()`; bucket records stay opaque (type `β`). -/
structure S3Response (β : Type) where
  Buckets : List β
deriving DecidableEq

/-- `sum(len(res["Instances"]) for res in instances["Reservations"])`
(app.py line 61). -/
def instance_count (instances : EC2Response α) : Nat :=
  (instances.Reservations.map fun res => res.Instances.length).sum

/-- Response body of a successful `/resources` call (app.py lines 66-69). -/
structure ResourceSummary where
  ec2_instances : Nat
  s3_buckets : Nat
deriving DecidableEq

/-- The `try` block of `get_resources` (app.py lines 55-71).  The three
fallible steps — `get_clients` (session construction), `describe_instances`
and `list_buckets` — are passed in as `Except` values carrying either their
result or the stringified exception; the first failure is caught by the
blanket `except` and re-raised as `HTTPException(400, str(e))`. -/
def get_resources (get_clients : Except String Unit)
    (describe_instances : Except String (EC2Response α))
    (list_buckets : Except String (S3Response β)) : HandlerResult ResourceSummary :=
  match get_clients with
  | .error e => .httpError e
  | .ok _ =>
      match describe_instances with
      | .error e => .httpError e
      | .ok instances =>
          match list_buckets with
          | .error e => .httpError e
          | .ok buckets =>
              .ok ⟨instance_count instances, buckets.Buckets.length⟩

/-- `POST /resources` end to end: pydantic validation, then the handler body
with the provider behaviour for the validated credentials.  The `Bool`
records whether any provider interaction (session construction or API call)
was attempted. -/
def resourcesEndpoint (p : Payload)
    (provider : AWSCreds →
      Except String Unit × Except String (EC2Response α) × Except String (S3Response β)) :
    Bool × HandlerResult ResourceSummary :=
  match validateCreds p with
  | .error e => (false, .validationFailure e)
  | .ok creds =>
      let pr := provider creds
      (true, get_resources pr.1 pr.2.1 pr.2.2)

/-! Section: Calendar dates (app.py lines 79-80, 83)

`end = datetime.today().date()`, `start = end - timedelta(days=30)`,
formatted with `strftime("%Y-%m-%d")`.  Python dates are proleptic Gregorian
ordinals (day 1 = 0001-01-01); subtracting a `timedelta` subtracts from the
ordinal. -/

/-- Civil date from a day count relative to 1970-01-01 (standard proleptic
Gregorian conversion): returns `(year, month, day)`. -/
def civilFromDays (z0 : Int) : Int × Int × Int :=
  let z := z0 + 719468
  let era := Int.fdiv z 146097
  let doe := z - era * 146097
  let yoe := (doe - doe / 1460 + doe / 36524 - doe / 146096) / 365
  let y := yoe + era * 400
  let doy := doe - (365 * yoe + yoe / 4 - yoe / 100)
  let mp := (5 * doy + 2) / 153
  let d := doy - (153 * mp + 2) / 5 + 1
  let m := mp + (if mp < 10 then 3 else -9)
  (y + (if m ≤ 2 then 1 else 0), m, d)

/-- Day count relative to 1970-01-01 of a civil `(year, month, day)`
(standard proleptic Gregorian conversion, inverse of `civilFromDays`). -/
def daysFromCivil (y m d : Int) : Int :=
  let y1 := y - (if m ≤ 2 then 1 else 0)
  let era := Int.fdiv y1 400
  let yoe := y1 - era * 400
  let doy := (153 * (m + (if 2 < m then -3 else 9)) + 2) / 5 + d - 1
  let doe := yoe * 365 + yoe / 4 - yoe / 100 + doy
  era * 146097 + doe - 719468

def digitChar (d : Nat) : Char := Char.ofNat (48 + d)

def natDigitsAux : Nat → Nat → List Char
  | 0, _ => []
  | fuel + 1, n => if n = 0 then [] else natDigitsAux fuel (n / 10) ++ [digitChar (n % 10)]

/-- Decimal rendering of `n`, zero-padded on the left to width `w`. -/
def padNum (w n : Nat) : String :=
  let ds := if n = 0 then ['0'] else natDigitsAux (n + 1) n
  ⟨List.replicate (w - ds.length) '0' ++ ds⟩

/-- `date.fromordinal(ord).strftime("%Y-%m-%d")` for a Python ordinal
(1 = 0001-01-01; 1970-01-01 has ordinal 719163). -/
def fmtYMD (ord : Nat) : String :=
  let c := civilFromDays ((ord : Int) - 719163)
  padNum 4 c.1.toNat ++ "-" ++ padNum 2 c.2.1.toNat ++ "-" ++ padNum 2 c.2.2.toNat

/-! Section: `/cost` (app.py lines 73-97) -/

/-- The `TimePeriod` argument of `get_cost_and_usage` (app.py line 83). -/
structure CostTimePeriod where
  Start : String
  End : String
deriving DecidableEq

/-- The keyword arguments of `ce.get_cost_and_usage` (app.py lines 82-87);
each `GroupBy` entry is its `(Type, Key)` pair. -/
structure CostQuery where
  TimePeriod : CostTimePeriod
  Granularity : String
  Metrics : List String
  GroupBy : List (String × String)
deriving DecidableEq

/-- The query `get_cost` issues for a given value of
`datetime.today().date()` (as a Python ordinal): a trailing 30-day window,
monthly granularity, unblended cost, grouped by service (app.py lines
79-87). -/
def costQuery (today : Nat) : CostQuery :=
  { TimePeriod := { Start := fmtYMD (today - 30), End := fmtYMD today }
    Granularity := "MONTHLY"
    Metrics := ["UnblendedCost"]
    GroupBy := [("DIMENSION", "SERVICE")] }

/-- `group["Metrics"]["UnblendedCost"]` of a cost response group. -/
structure MetricValue where
  Amount : String
deriving DecidableEq

/-- `group["Metrics"]` of a cost response group. -/
structure GroupMetrics where
  UnblendedCost : MetricValue
deriving DecidableEq

/-- One element of `...["Groups"]` in the billing response (app.py lines
90-92). -/
structure CostGroup where
  Keys : List String
  Metrics : GroupMetrics
deriving DecidableEq

/-- One element of `response["ResultsByTime"]`. -/
structure TimeBucket where
  Groups : List CostGroup
deriving DecidableEq

/-- Response of `ce.get_cost_and_usage`. -/
structure CostResponse where
  ResultsByTime : List TimeBucket
deriving DecidableEq

def keyOf? (g : CostGroup) : Option String := g.Keys.head?

def amountOf (g : CostGroup) : String := g.Metrics.UnblendedCost.Amount

/-- Python dict assignment `d[k] = v`: replace the value at an existing key
in place, otherwise append the new binding. -/
def dictSet (d : List (String × Qx)) (k : String) (v : Qx) : List (String × Qx) :=
  match d with
  | [] => [(k, v)]
  | (k1, v1) :: rest => if k1 = k then (k, v) :: rest else (k1, v1) :: dictSet rest k v

/-- Python dict lookup `d[k]` as an `Option`. -/
def dictGet (d : List (String × Qx)) (k : String) : Option Qx :=
  match d with
  | [] => none
  | (k1, v1) :: rest => if k1 = k then some v1 else dictGet rest k

def dictKeys (d : List (String × Qx)) : List String := d.map Prod.fst

/-- The `for group in ...["Groups"]` loop of `get_cost` (app.py lines
89-93): `service = group["Keys"][0]` (IndexError on an empty key list),
`amount = ...["Amount"]`, `costs[service] = round(float(amount), 2)`
(ValueError on an unparseable amount).  Any exception aborts the loop and is
caught by the blanket `except`. -/
def processGroups : List CostGroup → List (String × Qx) → Except String (List (String × Qx))
  | [], costs => .ok costs
  | group :: rest, costs =>
      match keyOf? group with
      | none => .error "list index out of range"
      | some service =>
          match pyFloat (amountOf group) with
          | none => .error ("could not convert string to float: '" ++ amountOf group ++ "'")
          | some x => processGroups rest (dictSet costs service (pyRound2 x))

/-- `response["ResultsByTime"][0]["Groups"]` folded through the loop with an
initially empty `costs` dict (app.py lines 89-95); `[0]` raises IndexError
when the bucket list is empty. -/
def getCostFromResponse (response : CostResponse) : Except String (List (String × Qx)) :=
  match response.ResultsByTime.head? with
  | none => .error "list index out of range"
  | some bucket => processGroups bucket.Groups []

/-- The `try` block of `get_cost` (app.py lines 75-97): session
construction, the billing query for the 30-day window ending `today`, and
the reshaping loop; the first exception is caught and re-raised as
`HTTPException(400, str(e))`. -/
def get_cost (get_clients : Except String Unit) (today : Nat)
    (get_cost_and_usage : CostQuery → Except String CostResponse) :
    HandlerResult (List (String × Qx)) :=
  match get_clients with
  | .error e => .httpError e
  | .ok _ =>
      match get_cost_and_usage (costQuery today) with
      | .error e => .httpError e
      | .ok response =>
          match getCostFromResponse response with
          | .error e => .httpError e
          | .ok costs => .ok costs

/-- `POST /cost` end to end, like `resourcesEndpoint`. -/
def costEndpoint (p : Payload) (today : Nat)
    (provider : AWSCreds → Except String Unit × (CostQuery → Except String CostResponse)) :
    Bool × HandlerResult (List (String × Qx)) :=
  match validateCreds p with
  | .error e => (false, .validationFailure e)
  | .ok creds =>
      let pr := provider creds
      (true, get_cost pr.1 today pr.2)

/-- Modelled from the spec (the words of the original claim): parse the
amount string "to a number" — its exact decimal value — and round it
"half-up to 2 fractional digits".  Compared against the code's
`round(float(amount), 2)`. -/
def specHalfUp2 (q : Qx) : Qx :=
  let s := q.mulInt 100
  let f := s.floor
  let t := 2 * (s.num - f * s.den)
  ⟨if t < s.den then f else f + 1, 100⟩

/-- The per-amount computation of app.py line 93, `round(float(amount), 2)`,
as an `Option` (a ValueError propagates as `none`). -/
def costAmount (amount : String) : Option Qx := (pyFloat amount).map pyRound2

/-! Section: `/health` (app.py lines 45-47) -/

/-- The constant body returned by `health()`. -/
def health_body : List (String × String) := [("status", "ok")]

/-- `GET /health`.  The two parameters record the external conditions the
specification quantifies over — whether the provider is reachable and
whether credentials were ever supplied; the handler body (app.py lines
45-47) consults neither and performs no provider call (the `Bool` in the
result, as in `resourcesEndpoint`, records whether one was attempted). -/
def healthEndpoint (providerReachable : Bool) (credsEverSupplied : Bool) :
    Bool × HandlerResult (List (String × String)) :=
  (false, .ok health_body)

/-! Section: Metrics middleware counter (app.py lines 37-43) -/

/-- `REQUEST_COUNT.labels(endpoint=endpoint).inc()` (app.py line 40).
Modelled from the spec: `prometheus_client`'s `Counter.inc` is library code
not under `src/`; following the spec's requirement that the counters
"support concurrent increment from many simultaneously-executing requests
without corruption (atomic counters)", one increment is one atomic
transition of the process-wide counter state. -/
def incLabel (counts : String → Nat) (endpoint : String) : String → Nat :=
  fun l => if l = endpoint then counts l + 1 else counts l

/-- The middleware applied to a finished concurrent execution: the requests'
atomic increments form an arbitrary interleaving, i.e. an arbitrary list of
the requests' `request.url.path` values, applied in sequence. -/
def processRequests (counts : String → Nat) : List String → (String → Nat)
  | [] => counts
  | e :: es => processRequests (incLabel counts e) es

/-! Section: `/metrics` (app.py lines 49-51) -/

/-- `prometheus_client.CONTENT_TYPE_LATEST`. -/
def CONTENT_TYPE_LATEST : String := "text/plain; version=0.0.4; charset=utf-8"

/-- A Python value as FastAPI's encoder sees it. -/
inductive PyVal where
  | pyStr : String → PyVal
  | pyBytes : String → PyVal
  | pyInt : Int → PyVal
  | pyTuple : List PyVal → PyVal
  | pyDict : List (String × PyVal) → PyVal

/-- The value `metrics()` returns (app.py line 51):
`generate_latest(), 200, {"Content-Type": CONTENT_TYPE_LATEST}` — a 3-tuple
(Flask's response convention), where `generate_latest()` is the exposition
text as `bytes`. -/
def metricsReturn (exposition : String) : PyVal :=
  .pyTuple [.pyBytes exposition, .pyInt 200,
            .pyDict [("Content-Type", .pyStr CONTENT_TYPE_LATEST)]]

/-- JSON string escaping as `json.dumps` performs it on the characters that
occur here (quote, backslash, newline; other control characters do not
arise in this development). -/
def jsonEscapeChar (c : Char) : List Char :=
  if c = '"' then ['\\', '"']
  else if c = '\\' then ['\\', '\\']
  else if c = '\n' then ['\\', 'n']
  else [c]

def jsonEscape (s : String) : String := ⟨s.toList.flatMap jsonEscapeChar⟩

def intRepr (n : Int) : String :=
  if n < 0 then ⟨'-' :: (natDigitsAux (n.natAbs + 1) n.natAbs)⟩
  else padNum 1 n.toNat

mutual
/-- `json.dumps(..., separators=(",", ":"))` as Starlette's `JSONResponse`
invokes it, composed with FastAPI's `jsonable_encoder` (which decodes
`bytes` to `str` and renders a tuple as a JSON array). -/
def jsonEncode : PyVal → String
  | .pyStr s => "\"" ++ jsonEscape s ++ "\""
  | .pyBytes s => "\"" ++ jsonEscape s ++ "\""
  | .pyInt n => intRepr n
  | .pyTuple vs => "[" ++ jsonEncodeList vs ++ "]"
  | .pyDict kvs => "\x7b" ++ jsonEncodeDict kvs ++ "\x7d"

def jsonEncodeList : List PyVal → String
  | [] => ""
  | [v] => jsonEncode v
  | v :: vs => jsonEncode v ++ "," ++ jsonEncodeList vs

def jsonEncodeDict : List (String × PyVal) → String
  | [] => ""
  | [kv] => "\"" ++ jsonEscape kv.1 ++ "\":" ++ jsonEncode kv.2
  | kv :: kvs => "\"" ++ jsonEscape kv.1 ++ "\":" ++ jsonEncode kv.2 ++ "," ++ jsonEncodeDict kvs
end

/-- A raw HTTP response. -/
structure HttpRaw where
  statusCode : Nat
  contentType : String
  body : String
deriving DecidableEq

/-- FastAPI's handling of a handler return value that is not a `Response`
object: it is passed through `jsonable_encoder` and wrapped in a
`JSONResponse` with the route's default status 200 and media type
`application/json`.  A `(body, status, headers)` tuple is not interpreted —
that is Flask's convention, not FastAPI's — it is just a value to encode. -/
def fastapiJsonResponse (v : PyVal) : HttpRaw :=
  { statusCode := 200, contentType := "application/json", body := jsonEncode v }

/-- `GET /metrics` end to end, given the exposition text the process-wide
registry renders at scrape time. -/
def metricsEndpoint (exposition : String) : HttpRaw :=
  fastapiJsonResponse (metricsReturn exposition)

/-! Section: helper lemmas about the dict and the groups loop -/

/-- The predicate "this group's service name is `k`". -/
def hasKey (k : String) (g : CostGroup) : Bool := keyOf? g = some k

theorem dictGet_dictSet_self (d : List (String × Qx)) (k : String) (v : Qx) :
    dictGet (dictSet d k v) k = some v := by
  induction d with
  | nil => simp [dictSet, dictGet]
  | cons kv rest ih =>
      obtain ⟨k1, v1⟩ := kv
      by_cases h : k1 = k <;> simp [dictSet, dictGet, h, ih]

theorem dictGet_dictSet_ne (d : List (String × Qx)) (k k1 : String) (v : Qx)
    (h : k1 ≠ k) : dictGet (dictSet d k1 v) k = dictGet d k := by
  induction d with
  | nil => simp [dictSet, dictGet, h]
  | cons kv rest ih =>
      obtain ⟨k2, v2⟩ := kv
      by_cases h2 : k2 = k1 <;> by_cases h3 : k2 = k <;>
        simp_all [dictSet, dictGet]

theorem dictKeys_dictSet (d : List (String × Qx)) (k : String) (v : Qx) :
    dictKeys (dictSet d k v) =
      if k ∈ dictKeys d then dictKeys d else dictKeys d ++ [k] := by
  induction d with
  | nil => simp [dictSet, dictKeys]
  | cons kv rest ih =>
      obtain ⟨k1, v1⟩ := kv
      by_cases h : k1 = k
      · subst h
        simp [dictSet, dictKeys]
      · have h2 : ¬ k = k1 := fun hk => h hk.symm
        simp only [dictSet, if_neg h, dictKeys, List.map_cons] at ih ⊢
        rw [ih]
        by_cases hm : k ∈ List.map Prod.fst rest
        · rw [if_pos hm, if_pos (List.mem_cons_of_mem k1 hm)]
        · rw [if_neg hm, if_neg (by simp [List.mem_cons, h2, hm])]
          simp

theorem dictKeys_dictSet_nodup (d : List (String × Qx)) (k : String) (v : Qx)
    (h : (dictKeys d).Nodup) : (dictKeys (dictSet d k v)).Nodup := by
  rw [dictKeys_dictSet]
  by_cases hm : k ∈ dictKeys d
  · simpa [hm] using h
  · simp only [hm, if_false]
    refine List.Nodup.append h (List.nodup_singleton k) ?_
    intro a ha hb
    simp only [List.mem_singleton] at hb
    subst hb
    exact hm ha

/-- A successful run of the groups loop parsed every group: each has a first
key and a float-convertible amount. -/
theorem processGroups_ok_all (gs : List CostGroup) (acc m : List (String × Qx))
    (h : processGroups gs acc = .ok m) :
    ∀ g ∈ gs, ∃ s x, keyOf? g = some s ∧ pyFloat (amountOf g) = some x := by
  induction gs generalizing acc with
  | nil => intro g hg; cases hg
  | cons g0 rest ih =>
      intro g hg
      rw [processGroups] at h
      cases hk : keyOf? g0 with
      | none => rw [hk] at h; cases h
      | some s =>
          rw [hk] at h
          cases hx : pyFloat (amountOf g0) with
          | none => rw [hx] at h; cases h
          | some x =>
              rw [hx] at h
              rcases List.mem_cons.mp hg with hg | hg
              · subst hg; exact ⟨s, x, hk, hx⟩
              · exact ih _ h g hg

/-- A successful run of the groups loop keeps the dict's keys duplicate
free. -/
theorem processGroups_ok_nodup (gs : List CostGroup) (acc m : List (String × Qx))
    (h : processGroups gs acc = .ok m) (hn : (dictKeys acc).Nodup) :
    (dictKeys m).Nodup := by
  induction gs generalizing acc with
  | nil => rw [processGroups] at h; cases h; exact hn
  | cons g0 rest ih =>
      rw [processGroups] at h
      cases hk : keyOf? g0 with
      | none => rw [hk] at h; cases h
      | some s =>
          rw [hk] at h
          cases hx : pyFloat (amountOf g0) with
          | none => rw [hx] at h; cases h
          | some x =>
              rw [hx] at h
              exact ih _ h (dictKeys_dictSet_nodup _ _ _ hn)

/-- Lookup after a successful run of the groups loop: the value bound to `k`
comes from the last group whose first key is `k`, and from the initial dict
when no group has that key. -/
theorem processGroups_ok_lookup (gs : List CostGroup) (acc m : List (String × Qx))
    (k : String) (h : processGroups gs acc = .ok m) :
    dictGet m k =
      match (gs.filter (hasKey k)).getLast? with
      | some g => (pyFloat (amountOf g)).map pyRound2
      | none => dictGet acc k := by
  induction gs generalizing acc with
  | nil =>
      rw [processGroups] at h
      cases h
      simp
  | cons g0 rest ih =>
      rw [processGroups] at h
      cases hk : keyOf? g0 with
      | none => rw [hk] at h; cases h
      | some s =>
          rw [hk] at h
          cases hx : pyFloat (amountOf g0) with
          | none => rw [hx] at h; cases h
          | some x =>
              rw [hx] at h
              have ihx := ih _ h
              by_cases hks : hasKey k g0
              · have hsk : s = k := by
                  have hx2 : keyOf? g0 = some k := of_decide_eq_true hks
                  rw [hk] at hx2
                  exact (Option.some.inj hx2)
                subst hsk
                rw [List.filter_cons_of_pos hks]
                cases hrest : rest.filter (hasKey s) with
                | nil =>
                    rw [hrest] at ihx
                    simp only [List.getLast?_nil] at ihx
                    rw [dictGet_dictSet_self] at ihx
                    simp [List.getLast?_singleton, hx, ihx]
                | cons b l =>
                    rw [hrest] at ihx
                    rw [List.getLast?_cons_cons]
                    exact ihx
              · have hsk : s ≠ k := by
                  intro hcon
                  apply hks
                  subst hcon
                  simp [hasKey, hk]
                rw [List.filter_cons_of_neg hks]
                rw [ihx]
                cases hrest : rest.filter (hasKey k) with
                | nil =>
                    simp only [List.getLast?_nil]
                    exact dictGet_dictSet_ne _ _ _ _ hsk
                | cons b l => rfl

/-- If some group fails — empty key list or unparseable amount — the loop
raises before finishing, whatever dict it has accumulated. -/
theorem processGroups_bad_error (gs : List CostGroup)
    (h : ∃ g ∈ gs, keyOf? g = none ∨ pyFloat (amountOf g) = none) :
    ∀ acc, ∃ e, processGroups gs acc = .error e := by
  induction gs with
  | nil => rcases h with ⟨g, hg, _⟩; cases hg
  | cons g0 rest ih =>
      intro acc
      rcases h with ⟨g, hg, hbad⟩
      rw [processGroups]
      cases hk : keyOf? g0 with
      | none => exact ⟨_, rfl⟩
      | some s =>
          cases hx : pyFloat (amountOf g0) with
          | none => exact ⟨_, rfl⟩
          | some x =>
              rcases List.mem_cons.mp hg with hg0 | hg0
              · subst hg0
                rcases hbad with hbad | hbad
                · rw [hk] at hbad; cases hbad
                · rw [hx] at hbad; cases hbad
              · exact ih ⟨g, hg0, hbad⟩ _

/-- A value found in the dict means the key is among the dict's keys. -/
theorem dictGet_mem_keys (d : List (String × Qx)) (k : String) (v : Qx)
    (h : dictGet d k = some v) : k ∈ dictKeys d := by
  induction d with
  | nil => cases h
  | cons kv rest ih =>
      obtain ⟨k1, v1⟩ := kv
      by_cases hk : k1 = k
      · subst hk; simp [dictKeys]
      · rw [dictGet, if_neg hk] at h
        exact List.mem_cons_of_mem _ (ih h)

/-- The request counter after any interleaving of atomic increments: each
label ends up incremented once per request with that path. -/
theorem processRequests_count (events : List String) (counts : String → Nat)
    (l : String) : processRequests counts events l = counts l + events.count l := by
  induction events generalizing counts with
  | nil => simp [processRequests]
  | cons e es ih =>
      rw [processRequests, ih, List.count_cons]
      by_cases h : l = e
      · subst h
        simp only [incLabel, if_pos rfl, beq_self_eq_true, if_true]
        omega
      · have hb : (l == e) = false := beq_eq_false_iff_ne.mpr h
        simp [incLabel, h, hb, Ne.symm h]

/-- Every path through the `/resources` handler body yields either a 200 or
the blanket 400. -/
theorem get_resources_status (gc : Except String Unit)
    (di : Except String (EC2Response α)) (lb : Except String (S3Response β)) :
    (get_resources gc di lb).statusCode = 200 ∨
    (get_resources gc di lb).statusCode = 400 := by
  cases gc <;> cases di <;> cases lb <;>
    simp [get_resources, HandlerResult.statusCode]

/-- Every path through the `/cost` handler body yields either a 200 or the
blanket 400. -/
theorem get_cost_status (gc : Except String Unit) (today : Nat)
    (ce : CostQuery → Except String CostResponse) :
    (get_cost gc today ce).statusCode = 200 ∨
    (get_cost gc today ce).statusCode = 400 := by
  cases gc with
  | error e => simp [get_cost, HandlerResult.statusCode]
  | ok u =>
      cases hce : ce (costQuery today) with
      | error e => simp [get_cost, hce, HandlerResult.statusCode]
      | ok r =>
          cases hr : getCostFromResponse r with
          | error e => simp [get_cost, hce, hr, HandlerResult.statusCode]
          | ok m => simp [get_cost, hce, hr, HandlerResult.statusCode]

/-! Section: calendar anchors, gaining confidence in the date embedding -/

theorem fmtYMD_epoch : fmtYMD 719163 = "1970-01-01" := by decide

theorem fmtYMD_ordinal_one : fmtYMD 1 = "0001-01-01" := by decide

theorem fmtYMD_leap_day : fmtYMD 730179 = "2000-02-29" := by decide

theorem civil_roundtrip_sample :
    civilFromDays (daysFromCivil 2026 10 12) = (2026, 10, 12) ∧
    daysFromCivil 2026 10 12 + 719163 = 739901 ∧ fmtYMD 739901 = "2026-10-12" ∧
    fmtYMD (739901 - 30) = "2026-09-12" := by decide

/-! Section: the claims -/

/-- Claim C1: for every credential payload accepted as valid and every
provider response in which the compute listing returns reservations whose
instance lists together hold `N` instances and the storage listing returns
`M` buckets, the `/resources` handler returns exactly
`{ec2_instances := N, s3_buckets := M}`, with `N` the sum over the
reservations of their instance-list lengths and `M` the bucket-list
length. -/
theorem c1_resources_counts (p : Payload) (c : AWSCreds)
    (prov : AWSCreds →
      Except String Unit × Except String (EC2Response α) × Except String (S3Response β))
    (instances : EC2Response α) (buckets : S3Response β) (N M : Nat)
    (hv : validateCreds p = .ok c)
    (hp : prov c = (.ok (), .ok instances, .ok buckets))
    (hN : (instances.Reservations.map fun res => res.Instances.length).sum = N)
    (hM : buckets.Buckets.length = M) :
    resourcesEndpoint p prov = (true, .ok ⟨N, M⟩) := by
  subst hN
  subst hM
  simp [resourcesEndpoint, hv, hp, get_resources, instance_count]

/-- Witness for C1: a provider returning 3 instances across three
reservations (2 + 0 + 1) and 2 buckets. -/
theorem c1_resources_counts_witness :
    validateCreds ⟨some "AK", some "SK", none⟩ = .ok ⟨"AK", "SK", "us-east-1"⟩ ∧
    resourcesEndpoint ⟨some "AK", some "SK", none⟩
        (fun _ => (.ok (), .ok ⟨[⟨["i-a", "i-b"]⟩, ⟨[]⟩, ⟨["i-c"]⟩]⟩,
                   .ok (⟨["b1", "b2"]⟩ : S3Response String)))
      = (true, .ok ⟨3, 2⟩) :=
  ⟨by decide,
   c1_resources_counts ⟨some "AK", some "SK", none⟩ ⟨"AK", "SK", "us-east-1"⟩ _
     ⟨[⟨["i-a", "i-b"]⟩, ⟨[]⟩, ⟨["i-c"]⟩]⟩ ⟨["b1", "b2"]⟩ 3 2
     (by decide) rfl (by decide) (by decide)⟩

/-- Claim C2 (amended): on the billing response whose first time-bucket has
service groups `EC2 ↦ "12.345"` and `S3 ↦ "0.001"`, `/cost` returns exactly
`EC2 ↦ 12.35` (the binary64 value nearest 12.35) and `S3 ↦ 0.0`; each
amount string is parsed to the nearest binary64 value and rounded to 2
fractional digits by Python's `round` — correct round-half-even on the
exact binary value, which agrees with half-up on these two amounts but not
on every amount. -/
theorem c2_cost_rounding :
    getCostFromResponse ⟨[⟨[⟨["EC2"], ⟨⟨"12.345"⟩⟩⟩, ⟨["S3"], ⟨⟨"0.001"⟩⟩⟩]⟩]⟩
      = .ok [("EC2", toDouble ⟨1235, 100⟩), ("S3", ⟨0, 1⟩)] ∧
    costAmount "12.345" = some (toDouble ⟨1235, 100⟩) ∧
    costAmount "0.001" = some ⟨0, 1⟩ := by
  decide

/-- Claim C2, counterexample to the original wording: amounts are not
rounded half-up.  The amount string `"0.125"` denotes exactly 1/8 (a value
the binary64 format represents exactly); half-up rounding to 2 fractional
digits gives 0.13, but the handler computes `round(float("0.125"), 2)`,
which rounds the tie to the even cent and yields 0.12 (the binary64 value
nearest 0.12, `8646911284551352 / 2^56`). -/
theorem c2_not_half_up :
    parseDec "0.125" = some ⟨125, 1000⟩ ∧
    costAmount "0.125" = some ⟨8646911284551352, 72057594037927936⟩ ∧
    specHalfUp2 ⟨125, 1000⟩ = ⟨13, 100⟩ ∧
    costAmount "0.125" ≠ some (toDouble ⟨13, 100⟩) ∧
    ¬ Qx.equiv ⟨8646911284551352, 72057594037927936⟩ ⟨13, 100⟩ ∧
    ¬ Qx.equiv ⟨8646911284551352, 72057594037927936⟩ (toDouble ⟨13, 100⟩) := by
  decide

/-- Claim C3: an exception raised during session construction or any
provider call inside `/resources` or `/cost` is returned as the 400-class
`HTTPException` whose detail is the stringified exception message; both
endpoints only ever produce statuses 200, 400 or 422 — never a 5xx — and
the handlers are total (no exception propagates). -/
theorem c3_errors_surface_as_400 (gc : Except String Unit)
    (di : Except String (EC2Response α)) (lb : Except String (S3Response β))
    (today : Nat) (ce : CostQuery → Except String CostResponse) (p : Payload)
    (prov : AWSCreds →
      Except String Unit × Except String (EC2Response α) × Except String (S3Response β))
    (cprov : AWSCreds → Except String Unit × (CostQuery → Except String CostResponse)) :
    (∀ e, gc = .error e →
      get_resources gc di lb = .httpError e ∧ get_cost gc today ce = .httpError e) ∧
    (∀ e, di = .error e → get_resources (.ok ()) di lb = .httpError e) ∧
    (∀ e instances, di = .ok instances → lb = .error e →
      get_resources (.ok ()) di lb = .httpError e) ∧
    (∀ e, ce (costQuery today) = .error e → get_cost (.ok ()) today ce = .httpError e) ∧
    ((resourcesEndpoint p prov).2.statusCode = 200 ∨
     (resourcesEndpoint p prov).2.statusCode = 400 ∨
     (resourcesEndpoint p prov).2.statusCode = 422) ∧
    ((costEndpoint p today cprov).2.statusCode = 200 ∨
     (costEndpoint p today cprov).2.statusCode = 400 ∨
     (costEndpoint p today cprov).2.statusCode = 422) := by
  refine ⟨?_, ?_, ?_, ?_, ?_, ?_⟩
  · rintro e rfl
    exact ⟨rfl, rfl⟩
  · rintro e rfl
    rfl
  · rintro e instances rfl rfl
    rfl
  · intro e he
    simp [get_cost, he]
  · cases hv : validateCreds p with
    | error e => simp [resourcesEndpoint, hv, HandlerResult.statusCode]
    | ok c =>
        simp only [resourcesEndpoint, hv]
        rcases get_resources_status (prov c).1 (prov c).2.1 (prov c).2.2 with h | h
        · exact Or.inl h
        · exact Or.inr (Or.inl h)
  · cases hv : validateCreds p with
    | error e => simp [costEndpoint, hv, HandlerResult.statusCode]
    | ok c =>
        simp only [costEndpoint, hv]
        rcases get_cost_status (cprov c).1 today (cprov c).2 with h | h
        · exact Or.inl h
        · exact Or.inr (Or.inl h)

/-- Witness for C3: a session-construction failure and a billing-call
failure both surface as 400 with the exception text as detail. -/
theorem c3_errors_surface_as_400_witness :
    get_resources (.error "boom") (.ok (⟨[]⟩ : EC2Response String))
        (.ok (⟨[]⟩ : S3Response String)) = .httpError "boom" ∧
    get_cost (.error "boom") 739901 (fun _ => .error "AccessDenied") = .httpError "boom" ∧
    get_cost (.ok ()) 739901 (fun _ => .error "AccessDenied") = .httpError "AccessDenied" := by
  have h := c3_errors_surface_as_400 (.error "boom") (.ok (⟨[]⟩ : EC2Response String))
    (.ok (⟨[]⟩ : S3Response String)) 739901 (fun _ => .error "AccessDenied")
    ⟨some "AK", some "SK", none⟩
    (fun _ => (.ok (), .ok ⟨[]⟩, .ok ⟨[]⟩))
    (fun _ => (.ok (), fun _ => .error "AccessDenied"))
  exact ⟨(h.1 "boom" rfl).1, (h.1 "boom" rfl).2, h.2.2.2.1 "AccessDenied" rfl⟩

/-- Claim C4: a request body missing `access_key` or `secret_key` is
rejected by validation with a 422 (a 4xx) and no provider interaction is
attempted on either endpoint. -/
theorem c4_missing_creds_rejected (p : Payload)
    (prov : AWSCreds →
      Except String Unit × Except String (EC2Response α) × Except String (S3Response β))
    (cprov : AWSCreds → Except String Unit × (CostQuery → Except String CostResponse))
    (today : Nat) (h : p.access_key = none ∨ p.secret_key = none) :
    (resourcesEndpoint p prov).1 = false ∧
    (∃ e, (resourcesEndpoint p prov).2 = .validationFailure e) ∧
    (resourcesEndpoint p prov).2.statusCode = 422 ∧
    (costEndpoint p today cprov).1 = false ∧
    (∃ e, (costEndpoint p today cprov).2 = .validationFailure e) ∧
    (costEndpoint p today cprov).2.statusCode = 422 := by
  have hv : ∃ e, validateCreds p = .error e := by
    rcases h with h | h
    · exact ⟨"Field required: access_key", by simp [validateCreds, h]⟩
    · cases hak : p.access_key with
      | none => exact ⟨"Field required: access_key", by simp [validateCreds, hak]⟩
      | some a => exact ⟨"Field required: secret_key", by simp [validateCreds, hak, h]⟩
  rcases hv with ⟨e, he⟩
  simp [resourcesEndpoint, costEndpoint, he, HandlerResult.statusCode]

/-- Witness for C4: a payload with no `access_key` reaches neither provider
on either endpoint. -/
theorem c4_missing_creds_rejected_witness :
    (resourcesEndpoint (⟨none, some "SK", none⟩ : Payload)
      (fun _ => (.ok (), .ok (⟨[]⟩ : EC2Response String),
                 .ok (⟨[]⟩ : S3Response String)))).1 = false ∧
    (costEndpoint (⟨none, some "SK", none⟩ : Payload) 739901
      (fun _ => (.ok (), fun _ => .ok ⟨[]⟩))).1 = false :=
  have h := c4_missing_creds_rejected (⟨none, some "SK", none⟩ : Payload) _ _ 739901
    (Or.inl rfl)
  ⟨h.1, h.2.2.2.1⟩

/-- Claim C5: when the first time-bucket holds two (or more) groups with
the same service name and the handler succeeds, the returned mapping binds
that name exactly once, to the rounded amount of the last-processed
occurrence; the earlier occurrences' amounts are overwritten. -/
theorem c5_duplicate_key_last_wins (response : CostResponse) (bucket : TimeBucket)
    (m : List (String × Qx)) (k : String)
    (hb : response.ResultsByTime.head? = some bucket)
    (hok : getCostFromResponse response = .ok m)
    (hdup : 2 ≤ (bucket.Groups.filter (hasKey k)).length) :
    (dictKeys m).count k = 1 ∧
    ∃ g x, (bucket.Groups.filter (hasKey k)).getLast? = some g ∧
      pyFloat (amountOf g) = some x ∧ dictGet m k = some (pyRound2 x) := by
  rw [getCostFromResponse, hb] at hok
  have hne : bucket.Groups.filter (hasKey k) ≠ [] := by
    intro hcon
    rw [hcon] at hdup
    simp at hdup
  obtain ⟨g, hg⟩ := Option.isSome_iff_exists.mp (List.getLast?_isSome.mpr hne)
  have hmemf : g ∈ bucket.Groups.filter (hasKey k) := List.mem_of_getLast?_eq_some hg
  have hmem : g ∈ bucket.Groups := List.mem_of_mem_filter hmemf
  obtain ⟨s, x, hs, hx⟩ := processGroups_ok_all _ _ _ hok g hmem
  have hlook := processGroups_ok_lookup _ _ _ k hok
  simp only [hg, hx] at hlook
  refine ⟨?_, g, x, hg, hx, hlook⟩
  have hnd := processGroups_ok_nodup _ _ _ hok (by simp [dictKeys])
  exact List.count_eq_one_of_mem hnd (dictGet_mem_keys _ _ _ hlook)

/-- Witness for C5: two `EC2` groups with amounts `"1.5"` then `"2.5"`; the
result maps `EC2` once, to 2.5. -/
theorem c5_duplicate_key_last_wins_witness :
    getCostFromResponse ⟨[⟨[⟨["EC2"], ⟨⟨"1.5"⟩⟩⟩, ⟨["EC2"], ⟨⟨"2.5"⟩⟩⟩]⟩]⟩
      = .ok [("EC2", ⟨5629499534213120, 2251799813685248⟩)] ∧
    ((dictKeys [("EC2", (⟨5629499534213120, 2251799813685248⟩ : Qx))]).count "EC2" = 1 ∧
     ∃ g x,
       ((⟨[⟨["EC2"], ⟨⟨"1.5"⟩⟩⟩, ⟨["EC2"], ⟨⟨"2.5"⟩⟩⟩]⟩ : TimeBucket).Groups.filter
           (hasKey "EC2")).getLast? = some g ∧
       pyFloat (amountOf g) = some x ∧
       dictGet [("EC2", ⟨5629499534213120, 2251799813685248⟩)] "EC2"
         = some (pyRound2 x)) :=
  ⟨by decide,
   c5_duplicate_key_last_wins ⟨[⟨[⟨["EC2"], ⟨⟨"1.5"⟩⟩⟩, ⟨["EC2"], ⟨⟨"2.5"⟩⟩⟩]⟩]⟩
     ⟨[⟨["EC2"], ⟨⟨"1.5"⟩⟩⟩, ⟨["EC2"], ⟨⟨"2.5"⟩⟩⟩]⟩
     [("EC2", ⟨5629499534213120, 2251799813685248⟩)] "EC2"
     rfl (by decide) (by decide)⟩

/-- Claim C6: a successful `/cost` request queries the billing client with
start = today − 30 days and end = today (both `YYYY-MM-DD`), monthly
granularity, the unblended-cost metric, grouping by the service dimension;
the handler consults the provider only at that query, and its mapping is
built only from the first time-bucket of the response. -/
theorem c6_cost_query_window (today : Nat) (h : 31 ≤ today) :
    costQuery today =
      { TimePeriod := { Start := fmtYMD (today - 30), End := fmtYMD today }
        Granularity := "MONTHLY"
        Metrics := ["UnblendedCost"]
        GroupBy := [("DIMENSION", "SERVICE")] } ∧
    (∀ (gc : Except String Unit) (f g : CostQuery → Except String CostResponse),
      f (costQuery today) = g (costQuery today) →
      get_cost gc today f = get_cost gc today g) ∧
    (∀ r1 r2 : CostResponse, r1.ResultsByTime.head? = r2.ResultsByTime.head? →
      getCostFromResponse r1 = getCostFromResponse r2) := by
  refine ⟨rfl, ?_, ?_⟩
  · intro gc f g hfg
    cases gc with
    | error e => rfl
    | ok u => simp [get_cost, hfg]
  · intro r1 r2 hr
    rw [getCostFromResponse, getCostFromResponse, hr]

/-- Witness for C6 at today = 2026-10-12 (ordinal 739901): the window runs
from 2026-09-12 to 2026-10-12. -/
theorem c6_cost_query_window_witness :
    31 ≤ 739901 ∧
    costQuery 739901 =
      { TimePeriod := { Start := fmtYMD (739901 - 30), End := fmtYMD 739901 }
        Granularity := "MONTHLY"
        Metrics := ["UnblendedCost"]
        GroupBy := [("DIMENSION", "SERVICE")] } ∧
    costQuery 739901 =
      { TimePeriod := { Start := "2026-09-12", End := "2026-10-12" }
        Granularity := "MONTHLY"
        Metrics := ["UnblendedCost"]
        GroupBy := [("DIMENSION", "SERVICE")] } :=
  ⟨by decide, (c6_cost_query_window 739901 (by decide)).1, by decide⟩

/-- Claim C7 (code bug): `metrics()` returns the Flask-style 3-tuple
`(generate_latest(), 200, {"Content-Type": CONTENT_TYPE_LATEST})` from a
FastAPI handler, so FastAPI JSON-encodes the whole tuple: the response body
is a JSON array wrapping the exposition text and the content type is
`application/json`, not the exposition content type the code and spec
intend. -/
theorem c7_metrics_not_exposition :
    (metricsEndpoint "").contentType = "application/json" ∧
    (metricsEndpoint "").body
      = "[\"\",200,\x7b\"Content-Type\":\"text/plain; version=0.0.4; charset=utf-8\"\x7d]" ∧
    (metricsEndpoint "").body ≠ "" ∧
    ∀ exposition, (metricsEndpoint exposition).contentType ≠ CONTENT_TYPE_LATEST :=
  ⟨by decide, by decide, by decide,
   fun _ => by
    show ("application/json" : String) ≠ CONTENT_TYPE_LATEST
    decide⟩

/-- Claim C8: `GET /health` returns 200 with body exactly
`{"status": "ok"}`, whatever the provider state and whether credentials
were ever supplied, and performs no provider call. -/
theorem c8_health_ok (providerReachable credsEverSupplied : Bool) :
    healthEndpoint providerReachable credsEverSupplied = (false, .ok [("status", "ok")]) ∧
    (healthEndpoint providerReachable credsEverSupplied).2.statusCode = 200 :=
  ⟨rfl, rfl⟩

/-- Claim C9: any interleaving of a finite concurrent execution in which
exactly `K` of the requests target `/resources` leaves the `/resources`
request counter exactly `K` higher — no increment is lost. -/
theorem c9_counter_exact_k (counts : String → Nat) (events : List String) (K : Nat)
    (h : events.count "/resources" = K) :
    processRequests counts events "/resources" = counts "/resources" + K := by
  rw [processRequests_count, h]

/-- Witness for C9: three interleaved requests, two of them to
`/resources`, increment the counter from 0 to 2. -/
theorem c9_counter_exact_k_witness :
    (["/resources", "/health", "/resources"].count "/resources" = 2) ∧
    processRequests (fun _ => 0) ["/resources", "/health", "/resources"] "/resources" = 2 :=
  ⟨by decide,
   c9_counter_exact_k (fun _ => 0) ["/resources", "/health", "/resources"] 2 (by decide)⟩

/-- Claim C10: `/cost` output is all-or-nothing.  An empty time-bucket list
raises IndexError; an unparseable amount in the first bucket raises
ValueError; either way the loop aborts and the handler returns the 400
error carrying only the message — never a partial mapping — and a 200
response has an entry for every group of the first bucket. -/
theorem c10_cost_all_or_nothing (response : CostResponse) :
    (response.ResultsByTime = [] →
      getCostFromResponse response = .error "list index out of range") ∧
    (∀ bucket, response.ResultsByTime.head? = some bucket →
      (∃ g ∈ bucket.Groups, pyFloat (amountOf g) = none) →
      ∃ e, getCostFromResponse response = .error e) ∧
    (∀ today (ce : CostQuery → Except String CostResponse) e,
      ce (costQuery today) = .ok response → getCostFromResponse response = .error e →
      get_cost (.ok ()) today ce = .httpError e) ∧
    (∀ m, getCostFromResponse response = .ok m →
      ∀ bucket, response.ResultsByTime.head? = some bucket →
      ∀ g ∈ bucket.Groups, ∃ s, keyOf? g = some s ∧ ∃ v, dictGet m s = some v) := by
  refine ⟨?_, ?_, ?_, ?_⟩
  · intro h
    simp [getCostFromResponse, h]
  · intro bucket hb hbad
    rw [getCostFromResponse, hb]
    refine processGroups_bad_error _ ?_ []
    rcases hbad with ⟨g, hg, hbad⟩
    exact ⟨g, hg, Or.inr hbad⟩
  · intro today ce e hce herr
    simp [get_cost, hce, herr]
  · intro m hm bucket hb g hg
    rw [getCostFromResponse, hb] at hm
    obtain ⟨s, x, hs, hx⟩ := processGroups_ok_all _ _ _ hm g hg
    refine ⟨s, hs, ?_⟩
    have hlook := processGroups_ok_lookup _ _ _ s hm
    have hmemf : g ∈ bucket.Groups.filter (hasKey s) :=
      List.mem_filter.mpr ⟨hg, by simp [hasKey, hs]⟩
    have hne : bucket.Groups.filter (hasKey s) ≠ [] := by
      intro hcon
      rw [hcon] at hmemf
      cases hmemf
    obtain ⟨glast, hglast⟩ := Option.isSome_iff_exists.mp (List.getLast?_isSome.mpr hne)
    have hgl_mem : glast ∈ bucket.Groups :=
      List.mem_of_mem_filter (List.mem_of_getLast?_eq_some hglast)
    obtain ⟨s2, x2, hs2, hx2⟩ := processGroups_ok_all _ _ _ hm glast hgl_mem
    simp only [hglast, hx2] at hlook
    exact ⟨_, hlook⟩

/-- Witness for C10: a response whose first bucket has a parseable group
followed by the unparseable amount `"12x"` fails as a whole. -/
theorem c10_cost_all_or_nothing_witness :
    pyFloat "12x" = none ∧
    ∃ e, getCostFromResponse ⟨[⟨[⟨["EC2"], ⟨⟨"1.5"⟩⟩⟩, ⟨["S3"], ⟨⟨"12x"⟩⟩⟩]⟩]⟩
      = .error e :=
  ⟨by decide,
   (c10_cost_all_or_nothing ⟨[⟨[⟨["EC2"], ⟨⟨"1.5"⟩⟩⟩, ⟨["S3"], ⟨⟨"12x"⟩⟩⟩]⟩]⟩).2.1
     ⟨[⟨["EC2"], ⟨⟨"1.5"⟩⟩⟩, ⟨["S3"], ⟨⟨"12x"⟩⟩⟩]⟩ rfl
     ⟨⟨["S3"], ⟨⟨"12x"⟩⟩⟩, by decide, by decide⟩⟩

end AwsDash
